import Mathlib

/-!
Formal model of the multikast multicast diagnostic tool (src/main.rs).

The Rust source is a thin CLI wrapper: it parses an interface selector
(numeric index or IPv4 address), builds a multicast UDP socket bound to the
group address and port, and runs either a receive-and-print loop (Listen) or
a read-stdin-and-send loop (Talk).

Modelling conventions:
- Machine integers become bounded naturals (`Fin 256` octets, `Fin 65536`
  ports and IPv6 segments, `Nat` with an explicit `< 2 ^ 32` check for u32).
- Fallible operations return `Option` or `Except`; a Rust `panic!` or a
  failed `assert!` becomes an explicit `panicked` outcome.
- Operating-system behaviour that the program relies on is modelled
  explicitly and idealised: `bind` succeeds exactly when the socket-address
  family matches the socket domain, and `recv_from` truncates a datagram to
  the 1024-byte buffer. Other OS failure modes are idealised away.
- Side effects of socket construction are recorded as an event trace so
  that statements about ordering and about the absence of effects on
  failure paths can be expressed.
-/

namespace Multikast

/-- IPv4 address: four octets, as in `std::net::Ipv4Addr`. -/
structure Ipv4Addr where
  o0 : Fin 256
  o1 : Fin 256
  o2 : Fin 256
  o3 : Fin 256
deriving DecidableEq, Repr

/-- IPv6 address: eight 16-bit segments, as in `std::net::Ipv6Addr`. -/
structure Ipv6Addr where
  s0 : Fin 65536
  s1 : Fin 65536
  s2 : Fin 65536
  s3 : Fin 65536
  s4 : Fin 65536
  s5 : Fin 65536
  s6 : Fin 65536
  s7 : Fin 65536
deriving DecidableEq, Repr

/-- `std::net::IpAddr`. -/
inductive IpAddr where
  | V4 (a : Ipv4Addr)
  | V6 (a : Ipv6Addr)
deriving DecidableEq, Repr

/-- Rust `Ipv4Addr::is_multicast`: first octet masked with 0xf0 equals 0xe0,
that is, the octet lies in 224..=239. -/
def Ipv4Addr.is_multicast (a : Ipv4Addr) : Bool :=
  (a.o0.val &&& 240) == 224

/-- Rust `Ipv6Addr::is_multicast`: first segment masked with 0xff00 equals
0xff00. -/
def Ipv6Addr.is_multicast (a : Ipv6Addr) : Bool :=
  (a.s0.val &&& 65280) == 65280

/-- Rust `IpAddr::is_multicast`, dispatching on the variant. -/
def IpAddr.is_multicast : IpAddr → Bool
  | .V4 a => a.is_multicast
  | .V6 a => a.is_multicast

/-- Whether the address is the IPv6 variant. -/
def IpAddr.isV6 : IpAddr → Bool
  | .V4 _ => false
  | .V6 _ => true

/-- Socket address: IP plus UDP port. The `flowinfo` and `scope_id` fields of
`SocketAddrV6` are always 0 in `main` (line 81) and are omitted. -/
structure SocketAddr where
  ip : IpAddr
  port : Fin 65536
deriving DecidableEq, Repr

/-- The `Either` sum type defined at src/main.rs lines 6-10. -/
inductive Either (T U : Type) where
  | left (t : T)
  | right (u : U)
deriving DecidableEq, Repr

/-- `socket2::InterfaceIndexOrAddress`. -/
inductive InterfaceIndexOrAddress where
  | Index (i : Nat)
  | Address (a : Ipv4Addr)
deriving DecidableEq, Repr

/-- The `From<Either<u32, Ipv4Addr>>` conversion at src/main.rs lines 18-25:
`Left index` becomes `Index`, `Right addr` becomes `Address`. -/
def InterfaceIndexOrAddress.ofEither : Either Nat Ipv4Addr → InterfaceIndexOrAddress
  | .left index => .Index index
  | .right addr => .Address addr

/-- Accumulate a list of decimal digit characters into a natural number. -/
def digitsToNat (cs : List Char) : Nat :=
  cs.foldl (fun acc c => acc * 10 + (c.toNat - 48)) 0

/-- Rust `str::parse::<u32>` (`u32::from_str`): an optional leading plus
sign, then one or more ASCII digits, value representable in 32 bits;
anything else is an error (`none`). -/
def parseU32 (s : String) : Option Nat :=
  let cs := s.toList
  let ds := match cs with
    | '+' :: rest => rest
    | _ => cs
  if ds.isEmpty then none
  else if ds.all Char.isDigit then
    let n := digitsToNat ds
    if n < 2 ^ 32 then some n else none
  else none

/-- One dotted-decimal octet of an IPv4 address, as read by the Rust
standard-library parser: one to three ASCII digits, no leading zero
(except the single digit 0), value at most 255. -/
def parseOctet (cs : List Char) : Option (Fin 256) :=
  match cs with
  | [] => none
  | c :: rest =>
    if !(c :: rest).all Char.isDigit then none
    else if c = '0' && !rest.isEmpty then none
    else if (c :: rest).length > 3 then none
    else
      let n := digitsToNat (c :: rest)
      if h : n ≤ 255 then some ⟨n, by omega⟩ else none

/-- Split a character list on a separator; adjacent separators and
separators at either end produce empty groups, as `str::split` does. -/
def splitOnChar (sep : Char) : List Char → List (List Char)
  | [] => [[]]
  | c :: cs =>
    if c = sep then [] :: splitOnChar sep cs
    else match splitOnChar sep cs with
      | [] => [[c]]
      | g :: gs => (c :: g) :: gs

/-- Rust `Ipv4Addr::from_str`: exactly four octets separated by dots, the
whole string consumed. -/
def parseIpv4 (s : String) : Option Ipv4Addr :=
  match (splitOnChar '.' s.toList).map parseOctet with
  | [some a, some b, some c, some d] => some ⟨a, b, c, d⟩
  | _ => none

/-- The parse error produced by `parse_interface` (the boxed
`AddrParseError` propagated by the `?` at src/main.rs line 33). -/
inductive ParseErr where
  | addrParseError
deriving DecidableEq, Repr

instance exceptDecEq {ε α : Type} [DecidableEq ε] [DecidableEq α] :
    DecidableEq (Except ε α)
  | .ok a, .ok b =>
    if h : a = b then isTrue (by rw [h]) else isFalse (by simp [h])
  | .ok _, .error _ => isFalse (by simp)
  | .error _, .ok _ => isFalse (by simp)
  | .error e, .error f =>
    if h : e = f then isTrue (by rw [h]) else isFalse (by simp [h])

/-- `parse_interface` at src/main.rs lines 27-35: try `s.parse::<u32>()`
first and return the index variant on success; otherwise parse the string
as an IPv4 address and return the address variant; propagate the address
parse error otherwise. -/
def parse_interface (s : String) : Except ParseErr (Either Nat Ipv4Addr) :=
  match parseU32 s with
  | some index => .ok (.left index)
  | none =>
    match parseIpv4 s with
    | some addr => .ok (.right addr)
    | none => .error .addrParseError

/-- Socket domain passed to `Socket::new`. -/
inductive Domain where
  | IPV4
  | IPV6
deriving DecidableEq, Repr

/-- Multicast group membership held by a socket after a join. -/
inductive GroupMembership where
  | none
  | v4 (group ifaddr : Ipv4Addr)
  | v6 (group : Ipv6Addr) (ifindex : Nat)
deriving DecidableEq, Repr

/-- The state of the UDP socket that `mc_socket` returns. -/
structure UdpSocket where
  domain : Domain
  localAddr : SocketAddr
  nonblocking : Bool
  reuseAddress : Bool
  joined : GroupMembership
deriving DecidableEq, Repr

/-- Observable side effects of `mc_socket`, in the order performed. An event
is recorded only when the corresponding operation succeeds. -/
inductive SockEvent where
  | create (d : Domain)
  | setNonblocking
  | setReuseAddress
  | bind (a : SocketAddr)
  | toAsync
  | joinV4 (group ifaddr : Ipv4Addr)
  | joinV6 (group : Ipv6Addr) (ifindex : Nat)
deriving DecidableEq, Repr

/-- Outcome of `mc_socket`: a socket, an `Err` propagated by `?`, or a
panic (from `assert!` or `panic!`). -/
inductive McResult where
  | ok (s : UdpSocket)
  | ioErr (msg : String)
  | panicked (msg : String)
deriving DecidableEq, Repr

/-- Whether the result is a returned socket. -/
def McResult.isOk : McResult → Bool
  | .ok _ => true
  | _ => false

/-- Outcome at process level of `mc_socket(multi, ...).unwrap()` in `main`
(src/main.rs line 84): `unwrap` turns an `Err` into a panic, and a panic
aborts the process, so anything but `ok` terminates the process. -/
def McResult.processFatal : McResult → Bool
  | .ok _ => false
  | .ioErr _ => true
  | .panicked _ => true

/-- OS model of `bind`: binding succeeds exactly when the address family of
the socket address matches the domain the socket was created with. Other
failure modes (port in use, permissions) are idealised away. -/
def bindOk (d : Domain) (a : SocketAddr) : Bool :=
  match d, a.ip with
  | .IPV4, .V4 _ => true
  | .IPV6, .V6 _ => true
  | _, _ => false

/-- `mc_socket` at src/main.rs lines 52-73, with its side effects recorded
as a trace.

Line by line: assert the group IP is multicast (line 54); create a socket
with `Domain::IPV4`, datagram type, UDP protocol (line 55); set
non-blocking (line 56); set address reuse (line 57); bind to the group
socket address (line 58, failing under the OS model when the family does
not match the IPv4 domain); convert to the async handle (line 60); then
join the group, matching on the pair of group IP and interface selector
(lines 62-70): IPv4 group with interface address joins v4, IPv6 group with
interface index joins v6, and any other combination panics. Joins are
idealised as succeeding. -/
def mc_socket (mc_addr : SocketAddr) (iface : InterfaceIndexOrAddress) :
    McResult × List SockEvent :=
  let mc_ip := mc_addr.ip
  if !mc_ip.is_multicast then
    (.panicked "assertion failed: mc_ip.is_multicast()", [])
  else
    let tr0 : List SockEvent :=
      [.create .IPV4, .setNonblocking, .setReuseAddress]
    if !bindOk .IPV4 mc_addr then
      (.ioErr "bind: address family mismatch", tr0)
    else
      let tr1 := tr0 ++ [.bind mc_addr, .toAsync]
      match mc_ip, iface with
      | .V4 g, .Address if_ip =>
          (.ok { domain := .IPV4, localAddr := mc_addr, nonblocking := true,
                 reuseAddress := true, joined := .v4 g if_ip },
           tr1 ++ [.joinV4 g if_ip])
      | .V6 g, .Index if_id =>
          (.ok { domain := .IPV4, localAddr := mc_addr, nonblocking := true,
                 reuseAddress := true, joined := .v6 g if_id },
           tr1 ++ [.joinV6 g if_id])
      | _, _ =>
          (.panicked "Invalid combination of multicast IP address and interface",
           tr1)

/-- The mismatch the spec describes: an IPv4 group with an interface index,
or an IPv6 group with an interface address. -/
def mismatched : IpAddr → InterfaceIndexOrAddress → Bool
  | .V4 _, .Index _ => true
  | .V6 _, .Address _ => true
  | _, _ => false

/-- Whether an event is a group join. -/
def SockEvent.isJoin : SockEvent → Bool
  | .joinV4 _ _ => true
  | .joinV6 _ _ => true
  | _ => false

/-- Whether an event is a bind. -/
def SockEvent.isBind : SockEvent → Bool
  | .bind _ => true
  | _ => false

/-- Whether an event is compatible with every created socket having the
IPv4 domain: true for non-creation events, and for creation events exactly
when the domain is IPv4. -/
def SockEvent.createIsV4 : SockEvent → Bool
  | .create d => d == .IPV4
  | _ => true

/-- A datagram sent by the Talk loop: its payload bytes and destination. -/
structure Datagram where
  payload : List Char
  dest : SocketAddr
deriving DecidableEq, Repr

/-- Strip one trailing carriage return, as `tokio::io::Lines` does after
removing the newline. -/
def stripCR (l : List Char) : List Char :=
  if l.getLast? = some '\r' then l.dropLast else l

/-- One step of `lines.next_line()` on the remaining input characters:
`none` at end of stream (zero bytes read); otherwise the characters up to
the first newline, with the newline consumed and a trailing carriage
return stripped, or the whole rest verbatim when the input ends without a
newline. -/
def nextLine (cs : List Char) : Option (List Char × List Char) :=
  match cs with
  | [] => none
  | c :: rest =>
    let content := (c :: rest).takeWhile (fun x => x != '\n')
    let after := (c :: rest).dropWhile (fun x => x != '\n')
    match after with
    | [] => some (content, [])
    | _ :: r => some (stripCR content, r)

theorem nextLine_length_lt {cs l r : List Char}
    (h : nextLine cs = some (l, r)) : r.length < cs.length := by
  match cs with
  | [] => simp [nextLine] at h
  | c :: rest =>
    rw [nextLine] at h
    rcases hafter : (c :: rest).dropWhile (fun x => x != '\n') with _ | ⟨x, xs⟩ <;>
      rw [hafter] at h <;> simp at h
    · rw [h.2]
      simp
    · have hsub := (List.dropWhile_sublist (l := c :: rest)
        (p := fun x => x != '\n')).length_le
      rw [hafter] at hsub
      rw [← h.2]
      simp at hsub ⊢
      omega

/-- Iteration worker for the Talk loop. The fuel argument is only a
termination bound: by `nextLine_length_lt` every iteration consumes at
least one character, so the fuel never runs out when it starts at the
length of the input. -/
def talkGo (multi : SocketAddr) : Nat → List Char → List Datagram
  | _, [] => []
  | 0, _ :: _ => []
  | fuel + 1, c :: cs =>
    match nextLine (c :: cs) with
    | none => []
    | some (l, r) => Datagram.mk l multi :: talkGo multi fuel r

/-- The Talk-mode loop of `main` at src/main.rs lines 93-98, on the
error-free path: repeatedly read the next line from standard input and send
its bytes as one datagram to `multi`, until end of stream. -/
def talkLoop (multi : SocketAddr) (cs : List Char) : List Datagram :=
  talkGo multi cs.length cs

/-- Iteration worker for the specification-side line reader, with the same
fuel convention as `talkGo`. -/
def linesGo : Nat → List Char → List (List Char)
  | _, [] => []
  | 0, _ :: _ => []
  | fuel + 1, c :: cs =>
    match nextLine (c :: cs) with
    | none => []
    | some (l, r) => l :: linesGo fuel r

/-- Specification-side notion of the lines of a character stream: what the
line reader yields, line by line. -/
def linesOf (cs : List Char) : List (List Char) :=
  linesGo cs.length cs

/-- One iteration-level event of the Talk loop with failures: a line read
from stdin together with whether the following `send_to` succeeds, or a
stdin read error. End of stream is the end of the event list. -/
inductive TalkEvent where
  | line (content : List Char) (sendOk : Bool)
  | readErr
deriving DecidableEq, Repr

/-- An event the Talk loop survives: a line whose send succeeds. -/
def TalkEvent.benign : TalkEvent → Bool
  | .line _ true => true
  | _ => false

/-- How the Talk loop ends: normal exit at end of stream, or a panic. -/
inductive TalkOutcome where
  | eofExit
  | panicked (msg : String)
deriving DecidableEq, Repr

/-- The Talk-mode loop of `main` at src/main.rs lines 93-98 over iteration
events: `lines.next_line().await.unwrap()` panics on a read error, the
loop exits normally when the stream ends, and `send_to(...).unwrap()`
panics when a send fails. -/
def talkRun : List TalkEvent → TalkOutcome
  | [] => .eofExit
  | .readErr :: _ => .panicked "stdin read error"
  | .line _ ok :: rest => if ok then talkRun rest else .panicked "send error"

/-- A datagram delivered to the Listen loop: payload bytes and the sender
address (rendered as text, as printed by the Rust `{:?}` formatting). -/
structure RecvDatagram where
  payload : List Char
  sender : String
deriving DecidableEq, Repr

/-- One event of the Listen loop: a datagram arriving, or a receive
failure. -/
inductive ListenEvent where
  | datagram (d : RecvDatagram)
  | recvErr
deriving DecidableEq, Repr

/-- Whether the event is an arriving datagram. -/
def ListenEvent.isDatagram : ListenEvent → Bool
  | .datagram _ => true
  | .recvErr => false

/-- OS model of `recv_from` into the fixed 1024-byte buffer at src/main.rs
line 88: the returned size is the datagram length truncated to the buffer
capacity. -/
def recvSize (d : RecvDatagram) : Nat :=
  min d.payload.length 1024

/-- The line printed for one received datagram at src/main.rs line 90. -/
def formatLine (n : Nat) (sender : String) : String :=
  "Received " ++ toString n ++ " bytes from " ++ sender

/-- Result of running the Listen loop against an event stream: the lines
printed to standard output, and whether the loop has terminated. The
result carries no error value: termination is silent. -/
structure ListenResult where
  printed : List String
  terminated : Bool
deriving DecidableEq, Repr

/-- The Listen-mode loop of `main` at src/main.rs lines 87-92:
`while let Ok((size, addr)) = socket.recv_from(&mut buf).await` prints one
line per successful receive and ends the loop, without printing anything
further, at the first receive error. An exhausted event stream means the
loop is still awaiting the next datagram (`terminated := false`). -/
def listenRun : List ListenEvent → ListenResult
  | [] => ⟨[], false⟩
  | .recvErr :: _ => ⟨[], true⟩
  | .datagram d :: rest =>
    let r := listenRun rest
    ⟨formatLine (recvSize d) d.sender :: r.printed, r.terminated⟩

/-- The datagrams the Listen loop actually processes: the longest prefix of
arriving datagrams before the first receive error. -/
def datagramsPrefix : List ListenEvent → List RecvDatagram
  | [] => []
  | .datagram d :: rest => d :: datagramsPrefix rest
  | .recvErr :: _ => []

/-- Claim C3: for every input string, interface-selector parsing returns
the index variant if the string parses as an unsigned 32-bit integer;
otherwise it returns the address variant if the string parses as an IPv4
address; otherwise it fails with a parse error. -/
theorem c3_parse_interface_contract (s : String) :
    (∀ n, parseU32 s = some n → parse_interface s = .ok (.left n)) ∧
    (parseU32 s = none → ∀ a, parseIpv4 s = some a →
      parse_interface s = .ok (.right a)) ∧
    (parseU32 s = none → parseIpv4 s = none →
      parse_interface s = .error .addrParseError) := by
  refine ⟨?_, ?_, ?_⟩ <;> intros <;> simp_all [parse_interface]

/-- Witness for C3 at the inputs "7", "10.0.0.1" and "xyz". -/
theorem c3_parse_interface_contract_witness :
    parse_interface "7" = .ok (.left 7) ∧
    parse_interface "10.0.0.1" = .ok (.right ⟨10, 0, 0, 1⟩) ∧
    parse_interface "xyz" = .error .addrParseError :=
  ⟨(c3_parse_interface_contract "7").1 7 (by decide),
   (c3_parse_interface_contract "10.0.0.1").2.1 (by decide) ⟨10, 0, 0, 1⟩ (by decide),
   (c3_parse_interface_contract "xyz").2.2 (by decide) (by decide)⟩

/-- Claim C1 counterexample: parsing the string "0" yields the index
variant of the interface selector (index 0), and socket construction with
group 239.1.1.1:12345 and that selector does not return a socket — it
cannot succeed, let alone return a socket bound to 239.1.1.1:12345. -/
theorem c1_counterexample_index_zero_not_ok :
    parse_interface "0" = .ok (.left 0) ∧
    (mc_socket ⟨.V4 ⟨239, 1, 1, 1⟩, 12345⟩
      (InterfaceIndexOrAddress.ofEither (.left 0))).1.isOk = false := by
  decide

/-- Claim C1 amended: with group socket address 239.1.1.1:12345 and the
interface selector obtained by parsing the string "0" (the index variant,
index 0), socket construction does not succeed: after creating,
configuring and binding the socket it hits the fatal panic on the
IPv4-group-with-interface-index combination. -/
theorem c1_amended_index_zero_panics :
    parse_interface "0" = .ok (.left 0) ∧
    mc_socket ⟨.V4 ⟨239, 1, 1, 1⟩, 12345⟩
        (InterfaceIndexOrAddress.ofEither (.left 0)) =
      (.panicked "Invalid combination of multicast IP address and interface",
       [.create .IPV4, .setNonblocking, .setReuseAddress,
        .bind ⟨.V4 ⟨239, 1, 1, 1⟩, 12345⟩, .toAsync]) := by
  decide

/-- Claim C2: for every group address and interface selector whose variants
mismatch (IPv4 group with interface index, or IPv6 group with interface
address), socket construction never returns a socket and the outcome is
process-terminating: either a panic inside `mc_socket`, or an `Err` that
the `unwrap` in `main` turns into a panic. The multicast hypothesis of the
claim is not even needed: a non-multicast group is also fatal, at the
assertion. -/
theorem c2_mismatch_fatal (a : SocketAddr) (i : InterfaceIndexOrAddress)
    (hmm : mismatched a.ip i = true) :
    (mc_socket a i).1.isOk = false ∧ (mc_socket a i).1.processFatal = true := by
  obtain ⟨ip, port⟩ := a
  cases ip with
  | V4 g =>
    cases i with
    | Index n =>
      cases hmc : g.is_multicast <;>
        simp [mc_socket, IpAddr.is_multicast, hmc, bindOk,
          McResult.isOk, McResult.processFatal]
    | Address _ => simp [mismatched] at hmm
  | V6 g =>
    cases i with
    | Index _ => simp [mismatched] at hmm
    | Address _ =>
      cases hmc : g.is_multicast <;>
        simp [mc_socket, IpAddr.is_multicast, hmc, bindOk,
          McResult.isOk, McResult.processFatal]

/-- Witness for C2: IPv4 multicast group 239.1.1.1 port 1 with interface
index 0. -/
theorem c2_mismatch_fatal_witness :
    (mc_socket ⟨.V4 ⟨239, 1, 1, 1⟩, 1⟩ (.Index 0)).1.isOk = false ∧
    (mc_socket ⟨.V4 ⟨239, 1, 1, 1⟩, 1⟩ (.Index 0)).1.processFatal = true :=
  c2_mismatch_fatal ⟨.V4 ⟨239, 1, 1, 1⟩, 1⟩ (.Index 0) (by decide)

/-- Claim C4: for every group address whose IP is not a multicast address,
socket construction panics at the assertion with an empty effect trace —
no socket is created, nothing is bound and nothing is joined on this
failure path. -/
theorem c4_non_multicast_no_effects (a : SocketAddr)
    (i : InterfaceIndexOrAddress) (hm : a.ip.is_multicast = false) :
    mc_socket a i = (.panicked "assertion failed: mc_ip.is_multicast()", []) := by
  simp [mc_socket, hm]

/-- Witness for C4 at the non-multicast group 127.0.0.1:80. -/
theorem c4_non_multicast_no_effects_witness :
    mc_socket ⟨.V4 ⟨127, 0, 0, 1⟩, 80⟩ (.Index 0) =
      (.panicked "assertion failed: mc_ip.is_multicast()", []) :=
  c4_non_multicast_no_effects ⟨.V4 ⟨127, 0, 0, 1⟩, 80⟩ (.Index 0) (by decide)

/-- Claim C5: when socket construction succeeds it has performed, in this
order: create a UDP socket (IPv4 domain), set it non-blocking, set address
reuse, bind it to the group socket address, convert it to the async
handle, and join the multicast group via the selected interface; the
returned socket is bound to the group address and port, and the group and
interface of the join are exactly the configured ones (on the success path
they are necessarily an IPv4 group and an interface address). -/
theorem c5_success_trace (a : SocketAddr) (i : InterfaceIndexOrAddress)
    (s : UdpSocket) (tr : List SockEvent)
    (h : mc_socket a i = (.ok s, tr)) :
    s.localAddr = a ∧ s.nonblocking = true ∧ s.reuseAddress = true ∧
    ∃ g if_ip, a.ip = .V4 g ∧ i = .Address if_ip ∧ s.joined = .v4 g if_ip ∧
      tr = [.create .IPV4, .setNonblocking, .setReuseAddress, .bind a,
            .toAsync, .joinV4 g if_ip] := by
  obtain ⟨ip, port⟩ := a
  cases ip with
  | V4 g =>
    cases i with
    | Index n =>
      cases hmc : g.is_multicast <;>
        simp [mc_socket, IpAddr.is_multicast, hmc, bindOk] at h
    | Address if_ip =>
      cases hmc : g.is_multicast <;>
        simp [mc_socket, IpAddr.is_multicast, hmc, bindOk] at h
      obtain ⟨h1, h2⟩ := h
      subst h2
      subst h1
      exact ⟨rfl, rfl, rfl, g, if_ip, rfl, rfl, rfl, rfl⟩
  | V6 g =>
    cases i <;> cases hmc : g.is_multicast <;>
      simp [mc_socket, IpAddr.is_multicast, hmc, bindOk] at h

/-- Witness for C5 at group 239.1.1.1:12345 and interface address
192.168.0.1. -/
theorem c5_success_trace_witness :
    (UdpSocket.mk .IPV4 ⟨.V4 ⟨239, 1, 1, 1⟩, 12345⟩ true true
        (.v4 ⟨239, 1, 1, 1⟩ ⟨192, 168, 0, 1⟩)).localAddr =
      ⟨.V4 ⟨239, 1, 1, 1⟩, 12345⟩ ∧
    (UdpSocket.mk .IPV4 ⟨.V4 ⟨239, 1, 1, 1⟩, 12345⟩ true true
        (.v4 ⟨239, 1, 1, 1⟩ ⟨192, 168, 0, 1⟩)).nonblocking = true ∧
    (UdpSocket.mk .IPV4 ⟨.V4 ⟨239, 1, 1, 1⟩, 12345⟩ true true
        (.v4 ⟨239, 1, 1, 1⟩ ⟨192, 168, 0, 1⟩)).reuseAddress = true ∧
    ∃ g if_ip,
      (SocketAddr.mk (.V4 ⟨239, 1, 1, 1⟩) 12345).ip = .V4 g ∧
      InterfaceIndexOrAddress.Address ⟨192, 168, 0, 1⟩ = .Address if_ip ∧
      (UdpSocket.mk .IPV4 ⟨.V4 ⟨239, 1, 1, 1⟩, 12345⟩ true true
        (.v4 ⟨239, 1, 1, 1⟩ ⟨192, 168, 0, 1⟩)).joined = .v4 g if_ip ∧
      [SockEvent.create .IPV4, .setNonblocking, .setReuseAddress,
       .bind ⟨.V4 ⟨239, 1, 1, 1⟩, 12345⟩, .toAsync,
       .joinV4 ⟨239, 1, 1, 1⟩ ⟨192, 168, 0, 1⟩] =
        [SockEvent.create .IPV4, .setNonblocking, .setReuseAddress,
         .bind ⟨.V4 ⟨239, 1, 1, 1⟩, 12345⟩, .toAsync, .joinV4 g if_ip] :=
  c5_success_trace ⟨.V4 ⟨239, 1, 1, 1⟩, 12345⟩ (.Address ⟨192, 168, 0, 1⟩)
    (UdpSocket.mk .IPV4 ⟨.V4 ⟨239, 1, 1, 1⟩, 12345⟩ true true
      (.v4 ⟨239, 1, 1, 1⟩ ⟨192, 168, 0, 1⟩))
    [SockEvent.create .IPV4, .setNonblocking, .setReuseAddress,
     .bind ⟨.V4 ⟨239, 1, 1, 1⟩, 12345⟩, .toAsync,
     .joinV4 ⟨239, 1, 1, 1⟩ ⟨192, 168, 0, 1⟩]
    (by decide)

/-- Claim C9: socket construction always creates the underlying socket
with the IPv4 domain — every creation event in the trace records
`Domain.IPV4`, whatever the group address family — and for every IPv6
group address construction never returns a socket and never reaches a
successful bind. -/
theorem c9_domain_always_ipv4 (a : SocketAddr) (i : InterfaceIndexOrAddress) :
    (mc_socket a i).2.all SockEvent.createIsV4 = true ∧
    (a.ip.isV6 = true →
      (mc_socket a i).1.isOk = false ∧
      (mc_socket a i).2.all (fun e => !e.isBind) = true) := by
  obtain ⟨ip, port⟩ := a
  cases ip with
  | V4 g =>
    refine ⟨?_, by simp [IpAddr.isV6]⟩
    cases i <;> cases hmc : g.is_multicast <;>
      simp [mc_socket, IpAddr.is_multicast, hmc, bindOk, SockEvent.createIsV4]
  | V6 g =>
    cases i <;> cases hmc : g.is_multicast <;>
      refine ⟨?_, fun _ => ⟨?_, ?_⟩⟩ <;>
        simp [mc_socket, IpAddr.is_multicast, hmc, bindOk,
          SockEvent.createIsV4, SockEvent.isBind, McResult.isOk]

/-- Witness for C9 at the IPv6 multicast group ff02::1 port 5000 with an
interface address, the variant combination the claim singles out. -/
theorem c9_domain_always_ipv4_witness :
    (mc_socket ⟨.V6 ⟨65282, 0, 0, 0, 0, 0, 0, 1⟩, 5000⟩
      (.Address ⟨192, 168, 0, 1⟩)).1.isOk = false ∧
    (mc_socket ⟨.V6 ⟨65282, 0, 0, 0, 0, 0, 0, 1⟩, 5000⟩
      (.Address ⟨192, 168, 0, 1⟩)).2.all (fun e => !e.isBind) = true :=
  (c9_domain_always_ipv4 ⟨.V6 ⟨65282, 0, 0, 0, 0, 0, 0, 1⟩, 5000⟩
    (.Address ⟨192, 168, 0, 1⟩)).2 (by decide)

/-- Claim C6: in Talk mode, on the error-free path, the datagrams sent are
exactly one per line read from standard input, each with the bytes of the
line verbatim as payload — no framing, no trailing newline, both already
absent from what the line reader yields — and each with the configured
group socket address as destination. -/
theorem c6_talk_one_datagram_per_line (multi : SocketAddr) (cs : List Char) :
    talkLoop multi cs = (linesOf cs).map (fun l => Datagram.mk l multi) := by
  have H : ∀ fuel ds, talkGo multi fuel ds =
      (linesGo fuel ds).map (fun l => Datagram.mk l multi) := by
    intro fuel
    induction fuel with
    | zero => intro ds; cases ds <;> rfl
    | succ n ih =>
      intro ds
      cases ds with
      | nil => rfl
      | cons c cs2 =>
        simp only [talkGo, linesGo]
        cases h : nextLine (c :: cs2) with
        | none => simp
        | some lr =>
          obtain ⟨l, r⟩ := lr
          simp [ih]
  exact H cs.length cs

/-- Claim C7: the Talk loop exits normally exactly when the whole event
stream is benign (every line read succeeds and every send succeeds) and
standard input then reaches end of stream; a stdin read failure or a send
failure panics at that point, whatever comes afterwards — no retry. -/
theorem c7_talk_termination (evs : List TalkEvent) :
    (talkRun evs = .eofExit ↔ evs.all TalkEvent.benign = true) ∧
    (∀ pre post, pre.all TalkEvent.benign = true →
      talkRun (pre ++ .readErr :: post) = .panicked "stdin read error" ∧
      ∀ l, talkRun (pre ++ .line l false :: post) = .panicked "send error") := by
  constructor
  · induction evs with
    | nil => simp [talkRun]
    | cons e rest ih =>
      cases e with
      | readErr => simp [talkRun, TalkEvent.benign]
      | line l ok =>
        cases ok <;> simp [talkRun, TalkEvent.benign, ih]
  · intro pre post hpre
    induction pre with
    | nil => exact ⟨rfl, fun l => rfl⟩
    | cons e rest ih =>
      cases e with
      | readErr => simp [TalkEvent.benign] at hpre
      | line l ok =>
        cases ok
        · simp [TalkEvent.benign] at hpre
        · simp only [List.all_cons, TalkEvent.benign, Bool.true_and] at hpre
          simpa [talkRun] using ih hpre

/-- Witness for C7: a benign stream exits at end of stream, and a read
error or a failed send after one successful line panics. -/
theorem c7_talk_termination_witness :
    talkRun [.line ['h', 'i'] true] = .eofExit ∧
    talkRun ([.line ['h', 'i'] true] ++ .readErr :: []) =
      .panicked "stdin read error" ∧
    talkRun ([.line ['h', 'i'] true] ++ .line ['x'] false :: []) =
      .panicked "send error" :=
  ⟨(c7_talk_termination [.line ['h', 'i'] true]).1.mpr (by decide),
   ((c7_talk_termination []).2 [.line ['h', 'i'] true] [] (by decide)).1,
   ((c7_talk_termination []).2 [.line ['h', 'i'] true] [] (by decide)).2 ['x']⟩

/-- Claim C8: in Listen mode the lines printed are exactly one line
`Received <N> bytes from <sender>` per datagram received before the first
receive failure, in order, and the loop has terminated — silently, with
no error value in the result — exactly when a receive failure occurs in
the event stream. -/
theorem c8_listen_output_and_termination (evs : List ListenEvent) :
    (listenRun evs).printed =
      (datagramsPrefix evs).map (fun d => formatLine (recvSize d) d.sender) ∧
    (listenRun evs).terminated = evs.any (fun e => !e.isDatagram) := by
  induction evs with
  | nil => exact ⟨rfl, rfl⟩
  | cons e rest ih =>
    cases e with
    | recvErr => simp [listenRun, datagramsPrefix, ListenEvent.isDatagram]
    | datagram d =>
      simp [listenRun, datagramsPrefix, ListenEvent.isDatagram, ih.1, ih.2]

/-- Claim C10: every line the Listen loop prints reports a byte count of
at most 1024: `recv_from` truncates each datagram to the fixed 1024-byte
buffer, so payload bytes beyond the buffer are never reflected in the
printed count. -/
theorem c10_printed_count_le_buffer (evs : List ListenEvent) (s : String)
    (hs : s ∈ (listenRun evs).printed) :
    ∃ n sender, n ≤ 1024 ∧ s = formatLine n sender := by
  induction evs with
  | nil => simp [listenRun] at hs
  | cons e rest ih =>
    cases e with
    | recvErr => simp [listenRun] at hs
    | datagram d =>
      simp only [listenRun, List.mem_cons] at hs
      rcases hs with h | h
      · exact ⟨recvSize d, d.sender, Nat.min_le_right _ _, h⟩
      · exact ih h

/-- Witness for C10: a 2000-byte datagram is printed with count 1024. -/
theorem c10_printed_count_le_buffer_witness :
    ∃ n sender, n ≤ 1024 ∧
      formatLine (recvSize ⟨List.replicate 2000 'x', "10.0.0.1:33"⟩)
          "10.0.0.1:33" =
        formatLine n sender :=
  c10_printed_count_le_buffer
    [.datagram ⟨List.replicate 2000 'x', "10.0.0.1:33"⟩]
    (formatLine (recvSize ⟨List.replicate 2000 'x', "10.0.0.1:33"⟩)
      "10.0.0.1:33")
    (List.Mem.head _)

end Multikast
